import Mathlib

/-!
Shallow embedding of `src/main.py` (Mini Resume Management service):
normalization, validation, filename resolution, and the in-memory
candidate store with its upload / get / list / delete operations.
Machine strings are Lean `String`s (sequences of unicode scalar values,
matching Python `str`); the filesystem is modelled as the set of existing
paths, with injected success flags for the fallible `open`/`write`/
`os.remove` calls.
-/

namespace MiniResume

/-- Characters allowed by `_safe_filename`'s class `[^a-zA-Z0-9._-]`
(i.e. the characters that are NOT replaced). -/
def isSafeChar (c : Char) : Bool :=
  (('a' ≤ c && c ≤ 'z') || ('A' ≤ c && c ≤ 'Z') || ('0' ≤ c && c ≤ '9')
    || c == '.' || c == '_' || c == '-')

/-- ASCII whitespace stripped by Python `str.strip()`. -/
def isPySpace (c : Char) : Bool :=
  c == ' ' || c == '\t' || c == '\n' || c == '\x0d' || c == '\x0b' || c == '\x0c'

/-- `re.sub(r"[^a-zA-Z0-9._-]+", "_", name)` on the character list: each
maximal run of disallowed characters becomes a single underscore.  The
boolean records whether the previous character was part of such a run. -/
def subAux : Bool → List Char → List Char
  | _, [] => []
  | prevBad, c :: cs =>
    if isSafeChar c then c :: subAux false cs
    else if prevBad then subAux true cs
    else '_' :: subAux true cs

/-- Python `str.strip`'s action on a character list: drop the characters
satisfying `p` from both ends. -/
def stripBoth (p : Char → Bool) (l : List Char) : List Char :=
  ((l.dropWhile p).reverse.dropWhile p).reverse

/-- Python `s.strip(c)`: drop the character `c` from both ends. -/
def stripChar (c : Char) (l : List Char) : List Char :=
  stripBoth (· == c) l

/-- Python `s.strip()` (whitespace at both ends). -/
def pyStrip (s : String) : String :=
  String.mk (stripBoth isPySpace s.data)

/-- Python truthiness of strings: `a or b`. -/
def pyOrStr (a b : String) : String :=
  if a = "" then b else a

/-- Python `s.lower()` (ASCII case mapping). -/
def pyLower (s : String) : String :=
  String.mk (s.data.map Char.toLower)

/-- Python `s.split(",")` on the character list: every comma separates,
empty pieces are kept.  The accumulator holds the current piece reversed. -/
def splitCommaAux : List Char → List Char → List String
  | [], acc => [String.mk acc.reverse]
  | c :: cs, acc =>
    if c == ',' then String.mk acc.reverse :: splitCommaAux cs []
    else splitCommaAux cs (c :: acc)

/-- Python `s.split(",")`. -/
def pySplitComma (s : String) : List String :=
  splitCommaAux s.data []

/-- `_safe_filename` (src/main.py:27-29):
`re.sub(r"[^a-zA-Z0-9._-]+", "_", name).strip("_")`, falling back to
`"resume"` when the result is empty. -/
def _safe_filename (name : String) : String :=
  pyOrStr (String.mk (stripChar '_' (subAux false name.data))) "resume"

/-- The case-insensitive deduplication loop of `_parse_skills`
(src/main.py:35-42): `seen` holds the lower-cased keys already emitted. -/
def dedupAux (seen : List String) : List String → List String
  | [] => []
  | s :: ss =>
    if pyLower s ∈ seen then dedupAux seen ss
    else s :: dedupAux (pyLower s :: seen) ss

/-- `_parse_skills` (src/main.py:32-42): split on commas, strip each piece,
drop empties, deduplicate case-insensitively keeping first occurrence. -/
def _parse_skills (skills_raw : String) : List String :=
  dedupAux [] (((pySplitComma skills_raw).map pyStrip).filter (· ≠ ""))

/-- `_normalize_phone` (src/main.py:23-24): `re.sub(r"\D", "", phone)` —
every non-digit character is removed. -/
def _normalize_phone (phone : String) : String :=
  String.mk (phone.data.filter Char.isDigit)

/-! ### `os.path` helpers -/

/-- The part of a path after the last `/` (`os.path.basename` on POSIX). -/
def lastComponent (l : List Char) : List Char :=
  (l.reverse.takeWhile (· ≠ '/')).reverse

/-- The suffix starting at the LAST `.` of the list, if any dot occurs. -/
def afterLastDot? : List Char → Option (List Char)
  | [] => none
  | c :: cs =>
    match afterLastDot? cs with
    | some e => some e
    | none => if c == '.' then some (c :: cs) else none

/-- The extension `os.path.splitext(p)[1]`: within the last path component,
leading dots are part of the root; the extension starts at the last dot of
the remainder. -/
def pySplitextExt (p : String) : String :=
  String.mk ((afterLastDot? ((lastComponent p.data).dropWhile (· == '.'))).getD [])

/-- The root `os.path.splitext(p)[0]`: everything before the extension. -/
def pySplitextRoot (p : String) : String :=
  String.mk (p.data.take (p.data.length - (pySplitextExt p).data.length))

/-- `os.path.basename` (POSIX). -/
def pyBasename (p : String) : String :=
  String.mk (lastComponent p.data)

/-- `os.path.join(a, b)` (POSIX), for a non-empty `a` not ending in `/`:
an absolute `b` replaces `a`, otherwise the parts are joined with `/`. -/
def pyJoin (a b : String) : String :=
  if b.data.head? = some '/' then b else a ++ "/" ++ b

def UPLOAD_DIR : String := "uploads"

/-- `ALLOWED_EXTENSIONS` (src/main.py:20). -/
def ALLOWED_EXTENSIONS : List String := [".pdf", ".doc", ".docx"]

/-- `_get_unique_save_path` (src/main.py:45-54), with the filesystem
existence check injected as `existsFn`. -/
def _get_unique_save_path (existsFn : String → Bool) (candidate_id : Nat)
    (original_filename : String) : String :=
  let safe_name := _safe_filename original_filename
  let base := pySplitextRoot safe_name
  let ext := pySplitextExt safe_name
  let path := pyJoin UPLOAD_DIR safe_name
  if !existsFn path then path
  else pyJoin UPLOAD_DIR (base ++ "_(" ++ Nat.repr candidate_id ++ ")" ++ ext)

/-! ### Dates (`datetime.date`) -/

/-- A Python `datetime.date`: compared lexicographically on (year, month, day). -/
structure PyDate where
  year : Nat
  month : Nat
  day : Nat
deriving DecidableEq, Repr

/-- Python `a < b` on dates: lexicographic on (year, month, day). -/
def pyDateLt (a b : PyDate) : Bool :=
  a.year < b.year
    || (a.year == b.year
        && (a.month < b.month || (a.month == b.month && a.day < b.day)))

def isLeapYear (y : Nat) : Bool := (y % 4 == 0 && y % 100 != 0) || y % 400 == 0

def daysInMonth (y m : Nat) : Nat :=
  if m == 2 then (if isLeapYear y then 29 else 28)
  else if m == 4 || m == 6 || m == 9 || m == 11 then 30
  else 31

def digitsToNat (l : List Char) : Nat :=
  l.foldl (fun a c => a * 10 + (c.toNat - '0'.toNat)) 0

/-- `date.fromisoformat` on a `YYYY-MM-DD` string: `none` models the
`ValueError` raised on any other shape or on a non-calendar date. -/
def parseIsoDate (s : String) : Option PyDate :=
  match s.data with
  | [y1, y2, y3, y4, h1, m1, m2, h2, d1, d2] =>
    if h1 = '-' ∧ h2 = '-' ∧ [y1, y2, y3, y4, m1, m2, d1, d2].all Char.isDigit then
      let y := digitsToNat [y1, y2, y3, y4]
      let m := digitsToNat [m1, m2]
      let d := digitsToNat [d1, d2]
      if 1 ≤ y ∧ 1 ≤ m ∧ m ≤ 12 ∧ 1 ≤ d ∧ d ≤ daysInMonth y m then
        some ⟨y, m, d⟩
      else none
    else none
  | _ => none

/-! ### Error taxonomy (spec §7) and validators -/

inductive ErrKind where
  | UnsupportedFileType
  | InvalidDateFormat
  | FutureDate
  | InvalidPhone
  | EmptySkills
  | OutOfRange (field : String)
  | NotFound
deriving DecidableEq, Repr

/-- `CandidateBase.validate_dob` (src/main.py:67-72): a DOB strictly after
today raises, i.e. errors with kind `FutureDate`. -/
def validate_dob (today v : PyDate) : Except ErrKind PyDate :=
  if pyDateLt today v then .error .FutureDate else .ok v

/-- `CandidateBase.validate_contact_number` (src/main.py:74-80): normalize,
then require 10-15 digits; the digit string is what the field stores. -/
def validate_contact_number (v : String) : Except ErrKind String :=
  let digits := _normalize_phone v
  if digits.length < 10 || digits.length > 15 then .error .InvalidPhone
  else .ok digits

/-- `CandidateBase.validate_skills` (src/main.py:82-88):
`[s.strip() for s in v if s and s.strip()]`, non-empty required. -/
def validate_skills (v : List String) : Except ErrKind (List String) :=
  let cleaned := (v.filter (fun s => !(s == "") && !(pyStrip s == ""))).map pyStrip
  if cleaned = [] then .error .EmptySkills else .ok cleaned

/-- The validated entity `CandidateBase` (src/main.py:57-88), fields post
normalization.  `Years_of_Experience` (a Python float used only for storage
and comparisons here) is modelled as a rational. -/
structure CandidateBase where
  Full_Name : String
  DOB : PyDate
  Contact_Number : String
  Address : String
  Qualification : String
  Graduation_Year : Int
  Years_of_Experience : Rat
  Skills : List String
deriving DecidableEq, Repr

/-- The pydantic validation errors for `CandidateBase`, collected in field
declaration order: `Field` constraint violations carry `OutOfRange` with the
field name, the three `field_validator`s carry their own kinds.  A field's
validator only runs when its `Field` constraint passed. -/
def fieldErrs (today : PyDate) (fullName : String) (dob : PyDate)
    (contact address qualification : String) (gradYear : Int) (yoe : Rat)
    (skills : List String) : List ErrKind :=
  (if fullName.length < 2 ∨ 100 < fullName.length then [.OutOfRange "Full_Name"] else [])
  ++ (match validate_dob today dob with | .error e => [e] | .ok _ => [])
  ++ (match validate_contact_number contact with | .error e => [e] | .ok _ => [])
  ++ (if address.length < 5 ∨ 300 < address.length then [.OutOfRange "Address"] else [])
  ++ (if qualification.length < 2 ∨ 120 < qualification.length then [.OutOfRange "Qualification"] else [])
  ++ (if gradYear < 1950 ∨ 2100 < gradYear then [.OutOfRange "Graduation_Year"] else [])
  ++ (if yoe < 0 ∨ 60 < yoe then [.OutOfRange "Years_of_Experience"] else [])
  ++ (if skills.length < 1 then [.OutOfRange "Skills"]
      else match validate_skills skills with | .error e => [e] | .ok _ => [])

/-- Constructing `CandidateBase(...)` (src/main.py:135-144): pydantic
collects every field error; on success the stored fields are the
validators' return values (digits for the contact number, stripped
non-empty skills). -/
def validateCandidateBase (today : PyDate) (fullName : String) (dob : PyDate)
    (contact address qualification : String) (gradYear : Int) (yoe : Rat)
    (skills : List String) : Except (List ErrKind) CandidateBase :=
  let errs := fieldErrs today fullName dob contact address qualification gradYear yoe skills
  if errs = [] then
    .ok { Full_Name := fullName, DOB := dob,
          Contact_Number := _normalize_phone contact,
          Address := address, Qualification := qualification,
          Graduation_Year := gradYear, Years_of_Experience := yoe,
          Skills := (skills.filter (fun s => !(s == "") && !(pyStrip s == ""))).map pyStrip }
  else .error errs

/-- `CandidateOut` (src/main.py:91-95). `created_at` is the
`datetime.utcnow()` timestamp, modelled as a number. -/
structure CandidateOut extends CandidateBase where
  id : Nat
  resume_filename : String
  resume_path : String
  created_at : Nat
deriving DecidableEq, Repr

/-! ### The in-memory store and the filesystem -/

/-- The `CANDIDATES` dict (src/main.py:13): an insertion-ordered
association list with unique keys, as a Python dict. -/
abbrev Store := List (Nat × CandidateOut)

def dictGet (l : Store) (k : Nat) : Option CandidateOut :=
  (l.find? (fun p => p.1 == k)).map Prod.snd

/-- `dict.pop(k, None)`'s removal effect. -/
def dictRemove (l : Store) (k : Nat) : Store :=
  l.filter (fun p => p.1 != k)

/-- `CANDIDATES[k] = v`: replace in place when the key exists, else append. -/
def dictInsert (l : Store) (k : Nat) (v : CandidateOut) : Store :=
  if (l.find? (fun p => p.1 == k)).isSome then
    l.map (fun p => if p.1 == k then (k, v) else p)
  else l ++ [(k, v)]

/-- The module-level mutable state: the id counter (src/main.py:15), the
candidate dict (src/main.py:13) and the set of paths existing on disk. -/
structure ServerState where
  NEXT_ID : Nat
  CANDIDATES : Store
  files : List String
deriving DecidableEq, Repr

/-- `open(path, "wb")` creates the file when missing (and truncates it
otherwise), so after a successful open the path exists. -/
def touchFile (fs : List String) (p : String) : List String :=
  if fs.contains p then fs else fs ++ [p]

/-! ### Endpoints -/

inductive UploadOutcome where
  | created (c : CandidateOut)
  | rejected (kinds : List ErrKind) (detail : String)
  | writeError
deriving DecidableEq, Repr

/-- `upload_candidate` (src/main.py:103-167).  `today` and `now` stand for
`date.today()` / `datetime.utcnow()`; `openOk` and `writeOk` inject whether
`open(stored_path, "wb")` and `f.write(content)` succeed — on either
failure the exception propagates (`writeError`) with no cleanup in the
source.  Validation-rejection details (`str(e)` of the pydantic error) are
not modelled beyond the error kinds. -/
def upload_candidate (today : PyDate) (now : Nat) (openOk writeOk : Bool)
    (fullName dobRaw contact address qualification : String)
    (gradYear : Int) (yoe : Rat) (skillsRaw : String)
    (resumeFilename : Option String) (st : ServerState) :
    UploadOutcome × ServerState :=
  let ext := pyLower (pySplitextExt (resumeFilename.getD ""))
  if !ALLOWED_EXTENSIONS.contains ext then
    (.rejected [.UnsupportedFileType]
       ("Only PDF/DOC/DOCX allowed. Got: " ++ pyOrStr ext "unknown"), st)
  else
    match parseIsoDate dobRaw with
    | none => (.rejected [.InvalidDateFormat] "DOB must be in YYYY-MM-DD format", st)
    | some dob_date =>
      let skills_list := _parse_skills skillsRaw
      match validateCandidateBase today fullName dob_date contact address
          qualification gradYear yoe skills_list with
      | .error errs => (.rejected errs "", st)
      | .ok base =>
        let candidate_id := st.NEXT_ID
        let st1 : ServerState := { st with NEXT_ID := st.NEXT_ID + 1 }
        let original_name := pyOrStr (resumeFilename.getD "") "resume"
        let stored_path :=
          _get_unique_save_path (fun p => st1.files.contains p) candidate_id original_name
        if !openOk then (.writeError, st1)
        else
          let st2 : ServerState := { st1 with files := touchFile st1.files stored_path }
          if !writeOk then (.writeError, st2)
          else
            let candidate : CandidateOut :=
              { base with
                id := candidate_id
                resume_filename := pyBasename stored_path
                resume_path := stored_path
                created_at := now }
            (.created candidate,
             { st2 with CANDIDATES := dictInsert st2.CANDIDATES candidate_id candidate })

/-- `get_candidate` (src/main.py:192-197): 404 (`NotFound`) when absent. -/
def get_candidate (cid : Nat) (st : ServerState) : Except ErrKind CandidateOut :=
  match dictGet st.CANDIDATES cid with
  | none => .error .NotFound
  | some c => .ok c

/-- `list_candidates` (src/main.py:170-189): optional skill /
min-experience / graduation-year filters, then a stable sort by
`created_at` descending. -/
def list_candidates (skill : Option String) (minExp : Option Rat)
    (gradYear : Option Int) (st : ServerState) : List CandidateOut :=
  let results := st.CANDIDATES.map Prod.snd
  let results :=
    match skill with
    | none => results
    | some sk =>
      if sk = "" then results
      else
        let s := pyLower (pyStrip sk)
        results.filter (fun c => c.Skills.any (fun x => pyLower x == s))
  let results :=
    match minExp with
    | none => results
    | some m => results.filter (fun c => decide (m ≤ c.Years_of_Experience))
  let results :=
    match gradYear with
    | none => results
    | some g => results.filter (fun c => c.Graduation_Year == g)
  results.mergeSort (fun a b => decide (b.created_at ≤ a.created_at))

inductive DeleteOutcome where
  | deleted
  | notFound
deriving DecidableEq, Repr

/-- `delete_candidate` (src/main.py:200-212): pop the record (404 when
absent), then best-effort remove the resume file — `removeOk = false`
models `os.remove` raising, which the `try/except: pass` swallows. -/
def delete_candidate (removeOk : Bool) (cid : Nat) (st : ServerState) :
    DeleteOutcome × ServerState :=
  match dictGet st.CANDIDATES cid with
  | none => (.notFound, st)
  | some candidate =>
    let st1 : ServerState := { st with CANDIDATES := dictRemove st.CANDIDATES cid }
    let files1 :=
      if (!(candidate.resume_path == "")) && st1.files.contains candidate.resume_path then
        (if removeOk then st1.files.erase candidate.resume_path else st1.files)
      else st1.files
    (.deleted, { st1 with files := files1 })

/-- Observer: the stored resume path of a successful upload outcome. -/
def uploadedPath : UploadOutcome → Option String
  | .created c => some c.resume_path
  | _ => none

/-! ## Lemmas: stripping and sanitizing -/

theorem head?_dropWhile_false (p : Char → Bool) (l : List Char) {x : Char}
    (h : (l.dropWhile p).head? = some x) : p x = false := by
  have h2 := List.head?_dropWhile_not p l
  rw [h] at h2
  exact h2

theorem dropWhile_eq_self_of_head? (p : Char → Bool) (l : List Char)
    (h : ∀ x, l.head? = some x → p x = false) : l.dropWhile p = l := by
  cases l with
  | nil => rfl
  | cons c cs => simp [List.dropWhile_cons, h c rfl]

theorem mem_stripBoth (p : Char → Bool) (l : List Char) (x : Char)
    (h : x ∈ stripBoth p l) : x ∈ l := by
  unfold stripBoth at h
  rw [List.mem_reverse] at h
  have h2 := (List.dropWhile_suffix p).subset h
  rw [List.mem_reverse] at h2
  exact (List.dropWhile_suffix p).subset h2

theorem getLast?_stripBoth_false (p : Char → Bool) (l : List Char) {x : Char}
    (h : (stripBoth p l).getLast? = some x) : p x = false := by
  unfold stripBoth at h
  rw [List.getLast?_reverse] at h
  exact head?_dropWhile_false p _ h

theorem getLast?_dropWhile_of_some (p : Char → Bool) (m : List Char) {x : Char}
    (h : (m.dropWhile p).getLast? = some x) : m.getLast? = some x := by
  obtain ⟨t, ht⟩ := List.dropWhile_suffix (l := m) p
  rw [← ht, List.getLast?_append, h]
  rfl

theorem head?_stripBoth_false (p : Char → Bool) (l : List Char) {x : Char}
    (h : (stripBoth p l).head? = some x) : p x = false := by
  unfold stripBoth at h
  rw [List.head?_reverse] at h
  have h2 := getLast?_dropWhile_of_some p (l.dropWhile p).reverse h
  rw [List.getLast?_reverse] at h2
  exact head?_dropWhile_false p l h2

theorem stripBoth_eq_self (p : Char → Bool) (l : List Char)
    (hh : ∀ x, l.head? = some x → p x = false)
    (hl : ∀ x, l.getLast? = some x → p x = false) : stripBoth p l = l := by
  unfold stripBoth
  rw [dropWhile_eq_self_of_head? p l hh]
  rw [dropWhile_eq_self_of_head? p l.reverse
    (fun x hx => hl x (by rwa [List.head?_reverse] at hx))]
  exact List.reverse_reverse l

theorem mem_subAux_safe (b : Bool) (l : List Char) (x : Char)
    (h : x ∈ subAux b l) : isSafeChar x = true := by
  induction l generalizing b with
  | nil => simp [subAux] at h
  | cons c cs ih =>
    unfold subAux at h
    by_cases hc : isSafeChar c
    · rw [if_pos hc] at h
      rcases List.mem_cons.mp h with rfl | h2
      · exact hc
      · exact ih false h2
    · rw [if_neg hc] at h
      cases b with
      | true => exact ih true (by simpa using h)
      | false =>
        rcases List.mem_cons.mp (by simpa using h) with rfl | h2
        · decide
        · exact ih true h2

theorem subAux_eq_self (l : List Char) (h : ∀ x ∈ l, isSafeChar x = true) :
    subAux false l = l := by
  induction l with
  | nil => rfl
  | cons c cs ih =>
    unfold subAux
    rw [if_pos (h c (List.mem_cons_self c cs))]
    rw [ih (fun x hx => h x (List.mem_cons_of_mem _ hx))]

theorem safe_filename_cases (s : String) :
    (stripChar '_' (subAux false s.data) = [] ∧ _safe_filename s = "resume") ∨
    (_safe_filename s = String.mk (stripChar '_' (subAux false s.data)) ∧
      stripChar '_' (subAux false s.data) ≠ []) := by
  unfold _safe_filename pyOrStr
  by_cases h : stripChar '_' (subAux false s.data) = []
  · left
    rw [h]
    exact ⟨rfl, rfl⟩
  · right
    refine ⟨?_, h⟩
    split
    · next he => exact absurd (congrArg String.data he) h
    · rfl

/-- C3: every character of `_safe_filename`'s output lies in
`[A-Za-z0-9._-]`, the output is never empty and never starts or ends with
an underscore, and whenever sanitizing and trimming leaves nothing the
literal fallback `"resume"` is returned. -/
theorem safe_filename_spec (s : String) :
    (∀ c ∈ (_safe_filename s).data, isSafeChar c = true) ∧
    _safe_filename s ≠ "" ∧
    (_safe_filename s).data.head? ≠ some '_' ∧
    (_safe_filename s).data.getLast? ≠ some '_' ∧
    (stripChar '_' (subAux false s.data) = [] → _safe_filename s = "resume") := by
  rcases safe_filename_cases s with ⟨_, h⟩ | ⟨h, hne⟩
  · rw [h]
    refine ⟨?_, ?_, ?_, ?_, fun _ => rfl⟩ <;> decide
  · rw [h]
    refine ⟨?_, ?_, ?_, ?_, fun h0 => absurd h0 hne⟩
    · intro c hc
      exact mem_subAux_safe false s.data c (mem_stripBoth _ _ c hc)
    · intro he
      exact hne (congrArg String.data he)
    · intro hh
      have h2 := head?_stripBoth_false (· == '_') (subAux false s.data) hh
      simp at h2
    · intro hl
      have h2 := getLast?_stripBoth_false (· == '_') (subAux false s.data) hl
      simp at h2

/-- C3 witness: on `"!!!"` sanitizing and trimming leaves nothing, so the
fallback fires and the output is the non-empty `"resume"`. -/
theorem safe_filename_spec_witness :
    _safe_filename "!!!" = "resume" ∧ _safe_filename "!!!" ≠ "" :=
  ⟨(safe_filename_spec "!!!").2.2.2.2 (by decide), (safe_filename_spec "!!!").2.1⟩

/-- C9: `_safe_filename` is idempotent — its output is a fixed point. -/
theorem safe_filename_idempotent (s : String) :
    _safe_filename (_safe_filename s) = _safe_filename s := by
  rcases safe_filename_cases s with ⟨_, h⟩ | ⟨h, hne⟩
  · rw [h]
    decide
  · rw [h]
    have hsafe : ∀ x ∈ stripChar '_' (subAux false s.data), isSafeChar x = true :=
      fun x hx => mem_subAux_safe false s.data x (mem_stripBoth _ _ x hx)
    have hh : ∀ x, (stripChar '_' (subAux false s.data)).head? = some x →
        (x == '_') = false :=
      fun x hx => head?_stripBoth_false (· == '_') (subAux false s.data) hx
    have hl : ∀ x, (stripChar '_' (subAux false s.data)).getLast? = some x →
        (x == '_') = false :=
      fun x hx => getLast?_stripBoth_false (· == '_') (subAux false s.data) hx
    unfold _safe_filename
    show pyOrStr (String.mk (stripChar '_'
      (subAux false (stripChar '_' (subAux false s.data))))) "resume" = _
    rw [subAux_eq_self _ hsafe]
    have hfix : stripChar '_' (stripChar '_' (subAux false s.data)) =
        stripChar '_' (subAux false s.data) :=
      stripBoth_eq_self (· == '_') _ hh hl
    rw [hfix]
    unfold pyOrStr
    split
    · next he => exact absurd (congrArg String.data he) hne
    · rfl

/-! ## Lemmas: skill deduplication -/

theorem dedupAux_sublist (seen : List String) (l : List String) :
    (dedupAux seen l).Sublist l := by
  induction l generalizing seen with
  | nil => simp [dedupAux]
  | cons s ss ih =>
    unfold dedupAux
    split
    · exact (ih seen).cons s
    · exact (ih _).cons₂ s

theorem mem_dedupAux_not_seen (seen : List String) (l : List String) (s : String)
    (h : s ∈ dedupAux seen l) : pyLower s ∉ seen := by
  induction l generalizing seen with
  | nil => simp [dedupAux] at h
  | cons t ts ih =>
    unfold dedupAux at h
    split at h
    · exact ih seen h
    · next hnotin =>
      rcases List.mem_cons.mp h with rfl | h2
      · exact hnotin
      · intro hx
        exact ih _ h2 (List.mem_cons_of_mem _ hx)

theorem dedupAux_pairwise (seen : List String) (l : List String) :
    (dedupAux seen l).Pairwise (fun a b => pyLower a ≠ pyLower b) := by
  induction l generalizing seen with
  | nil => simp [dedupAux]
  | cons t ts ih =>
    unfold dedupAux
    split
    · exact ih seen
    · refine List.Pairwise.cons ?_ (ih _)
      intro b hb hbeq
      exact mem_dedupAux_not_seen _ _ b hb
        (by rw [← hbeq]; exact List.mem_cons_self _ _)

/-- C4: `_parse_skills` never outputs two case-insensitively equal elements,
never outputs an empty or whitespace-only element, preserves the first-seen
casing and order (its output is a sublist of the stripped non-empty
pieces), and maps `"Python, python, SQL"` to `["Python", "SQL"]`. -/
theorem parse_skills_spec (raw : String) :
    (_parse_skills raw).Pairwise (fun a b => pyLower a ≠ pyLower b) ∧
    (∀ s ∈ _parse_skills raw, (s.data.any fun c => !isPySpace c) = true) ∧
    (_parse_skills raw).Sublist (((pySplitComma raw).map pyStrip).filter (· ≠ "")) ∧
    _parse_skills "Python, python, SQL" = ["Python", "SQL"] := by
  refine ⟨dedupAux_pairwise [] _, ?_, dedupAux_sublist [] _, by decide⟩
  intro s hs
  have hmem := (dedupAux_sublist [] _).subset hs
  rw [List.mem_filter] at hmem
  obtain ⟨hmem1, hne⟩ := hmem
  have hne2 : s ≠ "" := of_decide_eq_true hne
  obtain ⟨t, _, rfl⟩ := List.mem_map.mp hmem1
  have hne3 : stripBoth isPySpace t.data ≠ [] := by
    intro h0
    exact hne2 (by unfold pyStrip; rw [h0])
  cases hd : (pyStrip t).data with
  | nil => exact absurd hd hne3
  | cons x xs =>
    have hx : (stripBoth isPySpace t.data).head? = some x := by
      rw [show stripBoth isPySpace t.data = (pyStrip t).data from rfl, hd]
      rfl
    have hxs := head?_stripBoth_false isPySpace t.data hx
    simp [hxs]

/-- C4 witness: the first-seen element `"Python"` of the sample parse is
neither empty nor whitespace-only. -/
theorem parse_skills_spec_witness :
    ("Python".data.any fun c => !isPySpace c) = true :=
  (parse_skills_spec "Python, python, SQL").2.1 "Python" (by decide)

/-! ## Phone and DOB validation -/

/-- C5: `_normalize_phone` keeps exactly the input's digit characters in
order; `validate_contact_number` errors with `InvalidPhone` iff the digit
count is outside [10, 15]; on acceptance the digit string itself is what is
returned and what `CandidateBase` stores as the contact number. -/
theorem contact_number_spec (v : String) :
    (_normalize_phone v).data = v.data.filter (fun c => c.isDigit) ∧
    (validate_contact_number v = Except.error ErrKind.InvalidPhone ↔
      ((_normalize_phone v).length < 10 ∨ 15 < (_normalize_phone v).length)) ∧
    (∀ d, validate_contact_number v = Except.ok d → d = _normalize_phone v) ∧
    (∀ today fullName dob address qualification gradYear yoe skills b,
      validateCandidateBase today fullName dob v address qualification gradYear
        yoe skills = Except.ok b → b.Contact_Number = _normalize_phone v) := by
  refine ⟨rfl, ?_, ?_, ?_⟩
  · simp only [validate_contact_number]
    split
    · next hcond =>
      simp only [Bool.or_eq_true, decide_eq_true_eq] at hcond
      exact ⟨fun _ => hcond, fun _ => rfl⟩
    · next hcond =>
      simp only [Bool.or_eq_true, decide_eq_true_eq] at hcond
      constructor
      · intro h
        exact Except.noConfusion h
      · intro h
        exact absurd h hcond
  · intro d h
    simp only [validate_contact_number] at h
    split at h
    · exact Except.noConfusion h
    · injection h with h2
      exact h2.symm
  · intro today fullName dob address qualification gradYear yoe skills b h
    simp only [validateCandidateBase] at h
    split at h
    · injection h with h2
      rw [← h2]
    · exact Except.noConfusion h

/-- C5 witness: `"abc"` normalizes to zero digits and is rejected with
`InvalidPhone`. -/
theorem contact_number_spec_witness :
    validate_contact_number "abc" = Except.error ErrKind.InvalidPhone :=
  (contact_number_spec "abc").2.1.mpr (Or.inl (by decide))

theorem pyDateLt_irrefl (d : PyDate) : pyDateLt d d = false := by
  simp [pyDateLt]

/-- C6: `validate_dob` errors with `FutureDate` exactly when the date is
strictly after today; a date equal to today is accepted; any date strictly
before 2999-01-01 taken as today rejects 2999-01-01. -/
theorem dob_validation_spec (today v : PyDate) :
    (validate_dob today v = Except.error ErrKind.FutureDate ↔
      pyDateLt today v = true) ∧
    validate_dob today today = Except.ok today ∧
    (pyDateLt today ⟨2999, 1, 1⟩ = true →
      validate_dob today ⟨2999, 1, 1⟩ = Except.error ErrKind.FutureDate) := by
  refine ⟨?_, ?_, ?_⟩
  · unfold validate_dob
    split
    · next hc => exact ⟨fun _ => hc, fun _ => rfl⟩
    · next hc =>
      constructor
      · intro h
        exact Except.noConfusion h
      · intro h
        exact absurd h hc
  · unfold validate_dob
    rw [if_neg]
    rw [pyDateLt_irrefl]
    exact Bool.false_ne_true
  · intro h
    simp [validate_dob, h]

/-- C6 witness: with today = 2026-10-12, the DOB 2999-01-01 is rejected
with `FutureDate` and today itself is accepted. -/
theorem dob_validation_spec_witness :
    validate_dob ⟨2026, 10, 12⟩ ⟨2999, 1, 1⟩ = Except.error ErrKind.FutureDate ∧
    validate_dob ⟨2026, 10, 12⟩ ⟨2026, 10, 12⟩ = Except.ok ⟨2026, 10, 12⟩ :=
  ⟨(dob_validation_spec ⟨2026, 10, 12⟩ ⟨2026, 10, 12⟩).2.2 (by decide),
   (dob_validation_spec ⟨2026, 10, 12⟩ ⟨2026, 10, 12⟩).2.1⟩

/-! ## Storage-path resolution -/

/-- C2: `_get_unique_save_path` returns `<uploadDir>/<safeName>` when no
file exists there, and otherwise exactly `<uploadDir>/<base>_(<id>)<ext>`
with no further retry (the second path is returned whatever `existsFn` says
about it); two uploads of `"cv.pdf"` give the second the stored path
`uploads/cv_(2).pdf`. -/
theorem unique_save_path_spec (existsFn : String → Bool) (cid : Nat) (fn : String) :
    (existsFn (pyJoin UPLOAD_DIR (_safe_filename fn)) = false →
      _get_unique_save_path existsFn cid fn = pyJoin UPLOAD_DIR (_safe_filename fn)) ∧
    (existsFn (pyJoin UPLOAD_DIR (_safe_filename fn)) = true →
      _get_unique_save_path existsFn cid fn =
        pyJoin UPLOAD_DIR (pySplitextRoot (_safe_filename fn) ++ "_(" ++
          Nat.repr cid ++ ")" ++ pySplitextExt (_safe_filename fn))) ∧
    _get_unique_save_path (fun p => p == "uploads/cv.pdf") 2 "cv.pdf" =
      "uploads/cv_(2).pdf" ∧
    uploadedPath (upload_candidate ⟨2026, 10, 12⟩ 101 true true "Jo" "2000-01-01"
      "0123456789" "addr5" "BS" 2020 1 "Python" (some "cv.pdf")
      (upload_candidate ⟨2026, 10, 12⟩ 100 true true "Jo" "2000-01-01"
        "0123456789" "addr5" "BS" 2020 1 "Python" (some "cv.pdf")
        ⟨1, [], []⟩).2).1 = some "uploads/cv_(2).pdf" := by
  refine ⟨?_, ?_, by decide, by decide⟩
  · intro h
    simp [_get_unique_save_path, h]
  · intro h
    simp [_get_unique_save_path, h]

/-- C2 witness: with every path reported occupied, id 7 and filename
`"my cv.pdf"`, the resolver appends `_(7)` before the extension. -/
theorem unique_save_path_spec_witness :
    _get_unique_save_path (fun _ => true) 7 "my cv.pdf" =
      pyJoin UPLOAD_DIR (pySplitextRoot (_safe_filename "my cv.pdf") ++ "_(" ++
        Nat.repr 7 ++ ")" ++ pySplitextExt (_safe_filename "my cv.pdf")) :=
  (unique_save_path_spec (fun _ => true) 7 "my cv.pdf").2.1 rfl

/-! ## The file-type gate -/

theorem contains_eq_true_iff_mem (l : List String) (a : String) :
    l.contains a = true ↔ a ∈ l := by
  simp

theorem validate_dob_error (today v : PyDate) (k : ErrKind)
    (h : validate_dob today v = Except.error k) : k = ErrKind.FutureDate := by
  unfold validate_dob at h
  split at h
  · injection h with h2
    exact h2.symm
  · exact Except.noConfusion h

theorem validate_contact_number_error (v : String) (k : ErrKind)
    (h : validate_contact_number v = Except.error k) : k = ErrKind.InvalidPhone := by
  simp only [validate_contact_number] at h
  split at h
  · injection h with h2
    exact h2.symm
  · exact Except.noConfusion h

theorem validate_skills_error (v : List String) (k : ErrKind)
    (h : validate_skills v = Except.error k) : k = ErrKind.EmptySkills := by
  simp only [validate_skills] at h
  split at h
  · injection h with h2
    exact h2.symm
  · exact Except.noConfusion h

/-- Field validation can only produce range, date, phone or skill errors —
never a file-type, date-format or not-found kind. -/
theorem mem_fieldErrs_kinds (today : PyDate) (fullName : String) (dob : PyDate)
    (contact address qualification : String) (gradYear : Int) (yoe : Rat)
    (skills : List String) (e : ErrKind)
    (h : e ∈ fieldErrs today fullName dob contact address qualification
      gradYear yoe skills) :
    e ≠ ErrKind.UnsupportedFileType ∧ e ≠ ErrKind.InvalidDateFormat ∧
      e ≠ ErrKind.NotFound := by
  unfold fieldErrs at h
  simp only [List.mem_append] at h
  rcases h with ((((((h | h) | h) | h) | h) | h) | h) | h
  · split at h <;> simp_all
  · split at h
    · rename_i k heq
      have hk := validate_dob_error _ _ _ heq
      simp_all
    · simp at h
  · split at h
    · rename_i k heq
      have hk := validate_contact_number_error _ _ heq
      simp_all
    · simp at h
  · split at h <;> simp_all
  · split at h <;> simp_all
  · split at h <;> simp_all
  · split at h <;> simp_all
  · split at h
    · simp_all
    · split at h
      · rename_i k heq
        have hk := validate_skills_error _ _ heq
        simp_all
      · simp at h

theorem validateCandidateBase_error (today : PyDate) (fullName : String)
    (dob : PyDate) (contact address qualification : String) (gradYear : Int)
    (yoe : Rat) (skills : List String) (errs : List ErrKind)
    (h : validateCandidateBase today fullName dob contact address qualification
      gradYear yoe skills = Except.error errs) :
    errs = fieldErrs today fullName dob contact address qualification
      gradYear yoe skills := by
  simp only [validateCandidateBase] at h
  split at h
  · exact Except.noConfusion h
  · injection h with h2
    exact h2.symm

/-- When the lower-cased extension is not allowed the gate fires first and
returns the whole request unchanged state. -/
theorem upload_gate_fail (today : PyDate) (now : Nat) (openOk writeOk : Bool)
    (fullName dobRaw contact address qualification : String) (gradYear : Int)
    (yoe : Rat) (skillsRaw : String) (fn : Option String) (st : ServerState)
    (hc : ALLOWED_EXTENSIONS.contains (pyLower (pySplitextExt (fn.getD ""))) = false) :
    upload_candidate today now openOk writeOk fullName dobRaw contact address
      qualification gradYear yoe skillsRaw fn st =
      (UploadOutcome.rejected [ErrKind.UnsupportedFileType]
        ("Only PDF/DOC/DOCX allowed. Got: " ++
          pyOrStr (pyLower (pySplitextExt (fn.getD ""))) "unknown"), st) := by
  unfold upload_candidate
  simp only []
  rw [hc]
  rfl

/-- When the extension is allowed, no rejection produced by the request
carries the `UnsupportedFileType` kind. -/
theorem upload_no_unsupported_when_allowed (today : PyDate) (now : Nat)
    (openOk writeOk : Bool)
    (fullName dobRaw contact address qualification : String) (gradYear : Int)
    (yoe : Rat) (skillsRaw : String) (fn : Option String) (st : ServerState)
    (hc : ALLOWED_EXTENSIONS.contains (pyLower (pySplitextExt (fn.getD ""))) = true)
    (ks : List ErrKind) (d : String)
    (h : (upload_candidate today now openOk writeOk fullName dobRaw contact
      address qualification gradYear yoe skillsRaw fn st).1 =
      UploadOutcome.rejected ks d) :
    ErrKind.UnsupportedFileType ∉ ks := by
  unfold upload_candidate at h
  simp only [] at h
  rw [hc] at h
  simp only [Bool.not_true] at h
  rw [if_neg Bool.false_ne_true] at h
  cases hp : parseIsoDate dobRaw with
  | none =>
    rw [hp] at h
    simp only [UploadOutcome.rejected.injEq] at h
    rw [← h.1]
    simp
  | some dob =>
    rw [hp] at h
    simp only [] at h
    cases hv : validateCandidateBase today fullName dob contact address
        qualification gradYear yoe (_parse_skills skillsRaw) with
    | error errs =>
      rw [hv] at h
      simp only [UploadOutcome.rejected.injEq] at h
      rw [← h.1]
      intro hmem
      have herrs := validateCandidateBase_error _ _ _ _ _ _ _ _ _ _ hv
      rw [herrs] at hmem
      exact (mem_fieldErrs_kinds _ _ _ _ _ _ _ _ _ _ hmem).1 rfl
    | ok base =>
      rw [hv] at h
      simp only [] at h
      cases openOk with
      | false => simp at h
      | true =>
        cases writeOk with
        | false => simp at h
        | true => simp at h

/-- C7: a creation request is rejected with `UnsupportedFileType` iff the
lower-cased extension of the uploaded filename is not among
`{.pdf, .doc, .docx}`; the rejection carries the detected extension (or
`"unknown"` when there is none), and `"resume.txt"` is rejected. -/
theorem upload_file_type_gate (today : PyDate) (now : Nat) (openOk writeOk : Bool)
    (fullName dobRaw contact address qualification : String) (gradYear : Int)
    (yoe : Rat) (skillsRaw : String) (fn : Option String) (st : ServerState) :
    ((∃ ks d, (upload_candidate today now openOk writeOk fullName dobRaw contact
        address qualification gradYear yoe skillsRaw fn st).1 =
          UploadOutcome.rejected ks d ∧ ErrKind.UnsupportedFileType ∈ ks) ↔
      pyLower (pySplitextExt (fn.getD "")) ∉ ALLOWED_EXTENSIONS) ∧
    (pyLower (pySplitextExt (fn.getD "")) ∉ ALLOWED_EXTENSIONS →
      upload_candidate today now openOk writeOk fullName dobRaw contact address
        qualification gradYear yoe skillsRaw fn st =
        (UploadOutcome.rejected [ErrKind.UnsupportedFileType]
          ("Only PDF/DOC/DOCX allowed. Got: " ++
            pyOrStr (pyLower (pySplitextExt (fn.getD ""))) "unknown"), st)) ∧
    (upload_candidate today now openOk writeOk fullName dobRaw contact address
        qualification gradYear yoe skillsRaw (some "resume.txt") st).1 =
      UploadOutcome.rejected [ErrKind.UnsupportedFileType]
        "Only PDF/DOC/DOCX allowed. Got: .txt" := by
  refine ⟨⟨?_, ?_⟩, ?_, ?_⟩
  · rintro ⟨ks, d, hks, hmem⟩ hext
    have hc : ALLOWED_EXTENSIONS.contains (pyLower (pySplitextExt (fn.getD ""))) = true :=
      (contains_eq_true_iff_mem _ _).mpr hext
    exact upload_no_unsupported_when_allowed today now openOk writeOk fullName
      dobRaw contact address qualification gradYear yoe skillsRaw fn st hc
      ks d hks hmem
  · intro hext
    have hc : ALLOWED_EXTENSIONS.contains (pyLower (pySplitextExt (fn.getD ""))) = false := by
      cases hb : ALLOWED_EXTENSIONS.contains (pyLower (pySplitextExt (fn.getD ""))) with
      | false => rfl
      | true => exact absurd ((contains_eq_true_iff_mem _ _).mp hb) hext
    have hgate := upload_gate_fail today now openOk writeOk fullName dobRaw
      contact address qualification gradYear yoe skillsRaw fn st hc
    exact ⟨[ErrKind.UnsupportedFileType], _,
      congrArg Prod.fst hgate, List.mem_cons_self _ _⟩
  · intro hext
    have hc : ALLOWED_EXTENSIONS.contains (pyLower (pySplitextExt (fn.getD ""))) = false := by
      cases hb : ALLOWED_EXTENSIONS.contains (pyLower (pySplitextExt (fn.getD ""))) with
      | false => rfl
      | true => exact absurd ((contains_eq_true_iff_mem _ _).mp hb) hext
    exact upload_gate_fail today now openOk writeOk fullName dobRaw contact
      address qualification gradYear yoe skillsRaw fn st hc
  · have hgate := upload_gate_fail today now openOk writeOk fullName dobRaw
      contact address qualification gradYear yoe skillsRaw (some "resume.txt")
      st (by decide)
    rw [congrArg Prod.fst hgate]
    rfl

/-- C7 witness: at a fully concrete request, uploading `"resume.txt"` is
rejected with `UnsupportedFileType` carrying `".txt"` and the state is
unchanged. -/
theorem upload_file_type_gate_witness :
    upload_candidate ⟨2026, 10, 12⟩ 100 true true "Jo" "2000-01-01" "0123456789"
      "addr5" "BS" 2020 1 "Python" (some "resume.txt") ⟨1, [], []⟩ =
      (UploadOutcome.rejected [ErrKind.UnsupportedFileType]
        ("Only PDF/DOC/DOCX allowed. Got: " ++
          pyOrStr (pyLower (pySplitextExt ((some "resume.txt").getD ""))) "unknown"),
       ⟨1, [], []⟩) :=
  (upload_file_type_gate ⟨2026, 10, 12⟩ 100 true true "Jo" "2000-01-01"
    "0123456789" "addr5" "BS" 2020 1 "Python" (some "resume.txt")
    ⟨1, [], []⟩).2.1 (by decide)

/-! ## Deletion -/

theorem dictGet_dictRemove_self (l : Store) (k : Nat) :
    dictGet (dictRemove l k) k = none := by
  have hfind : (dictRemove l k).find? (fun p => p.1 == k) = none := by
    rw [List.find?_eq_none]
    intro x hx
    unfold dictRemove at hx
    rw [List.mem_filter] at hx
    have h2 := hx.2
    simp only [bne_iff_ne, ne_eq] at h2
    simp [h2]
  unfold dictGet
  rw [hfind]
  rfl

theorem dictGet_dictRemove_ne (l : Store) (k j : Nat) (h : j ≠ k) :
    dictGet (dictRemove l k) j = dictGet l j := by
  induction l with
  | nil => rfl
  | cons p ps ih =>
    by_cases hk : p.1 = k
    · have h1 : (p.1 != k) = false := by simp [hk]
      have h2 : (p.1 == j) = false := by
        rw [hk]
        exact beq_eq_false_iff_ne.mpr (fun hh => h hh.symm)
      simp only [dictRemove, List.filter_cons, h1, Bool.false_eq_true, if_false]
      unfold dictRemove at ih
      rw [ih]
      unfold dictGet
      rw [List.find?_cons_of_neg _ (by simp [h2])]
    · have h1 : (p.1 != k) = true := by simp [hk]
      simp only [dictRemove, List.filter_cons, h1, if_true]
      by_cases hj : p.1 = j
      · unfold dictGet
        rw [List.find?_cons_of_pos _ (by simp [hj]),
          List.find?_cons_of_pos _ (by simp [hj])]
      · unfold dictGet at *
        rw [List.find?_cons_of_neg _ (by simp [hj]),
          List.find?_cons_of_neg _ (by simp [hj])]
        unfold dictRemove at ih
        exact ih

/-- The dict/filesystem invariant the running service maintains: every
stored record's `id` equals its key, and the path list has no duplicates. -/
def storeWF (st : ServerState) : Prop :=
  (∀ p ∈ st.CANDIDATES, p.2.id = p.1) ∧ st.files.Nodup

/-- C8: deleting a stored record removes it from the map (subsequent lookup
is `NotFound` and no listed record has its id), removes the backing file
when `os.remove` succeeds, still reports success when `os.remove` fails,
and deleting an absent id returns `NotFound` leaving the state unchanged. -/
theorem delete_candidate_spec (removeOk : Bool) (cid : Nat) (st : ServerState) :
    (dictGet st.CANDIDATES cid = none →
      delete_candidate removeOk cid st = (DeleteOutcome.notFound, st)) ∧
    (∀ cand, dictGet st.CANDIDATES cid = some cand →
      (delete_candidate removeOk cid st).1 = DeleteOutcome.deleted ∧
      get_candidate cid (delete_candidate removeOk cid st).2 =
        Except.error ErrKind.NotFound ∧
      (storeWF st → ∀ c ∈ list_candidates none none none
        (delete_candidate removeOk cid st).2, c.id ≠ cid) ∧
      (storeWF st → removeOk = true → cand.resume_path ≠ "" →
        cand.resume_path ∉ (delete_candidate removeOk cid st).2.files)) := by
  constructor
  · intro h
    unfold delete_candidate
    rw [h]
  · intro cand h
    have hfst : (delete_candidate removeOk cid st).1 = DeleteOutcome.deleted := by
      unfold delete_candidate
      rw [h]
    refine ⟨hfst, ?_, ?_, ?_⟩
    · have hget : dictGet (delete_candidate removeOk cid st).2.CANDIDATES cid = none := by
        unfold delete_candidate
        rw [h]
        exact dictGet_dictRemove_self st.CANDIDATES cid
      unfold get_candidate
      rw [hget]
    · intro hwf c hc
      have hlist : list_candidates none none none (delete_candidate removeOk cid st).2 =
          ((dictRemove st.CANDIDATES cid).map Prod.snd).mergeSort
            (fun a b => decide (b.created_at ≤ a.created_at)) := by
        unfold delete_candidate
        rw [h]
        rfl
      rw [hlist] at hc
      simp only [List.mem_mergeSort] at hc
      obtain ⟨p, hp, rfl⟩ := List.mem_map.mp hc
      unfold dictRemove at hp
      rw [List.mem_filter] at hp
      obtain ⟨hp1, hp2⟩ := hp
      simp only [bne_iff_ne, ne_eq, decide_eq_true_eq] at hp2
      rw [hwf.1 p hp1]
      exact hp2
    · intro hwf hrm hne
      subst hrm
      have hfiles : (delete_candidate true cid st).2.files =
          (if (!(cand.resume_path == "")) && st.files.contains cand.resume_path
            then st.files.erase cand.resume_path else st.files) := by
        unfold delete_candidate
        rw [h]
        rfl
      rw [hfiles]
      have hbeq : (cand.resume_path == "") = false := by
        simp [hne]
      cases hbc : st.files.contains cand.resume_path with
      | true =>
        rw [if_pos (by simp [hbeq, hbc])]
        exact hwf.2.not_mem_erase
      | false =>
        rw [if_neg (by simp [hbc])]
        intro hmem
        rw [(contains_eq_true_iff_mem st.files cand.resume_path).mpr hmem] at hbc
        exact Bool.noConfusion hbc

/-- A concrete stored record used by the closed witnesses below. -/
def sampleCandidate : CandidateOut :=
  { Full_Name := "Jo", DOB := ⟨2000, 1, 1⟩, Contact_Number := "0123456789",
    Address := "addr5", Qualification := "BS", Graduation_Year := 2020,
    Years_of_Experience := 1, Skills := ["Python"], id := 1,
    resume_filename := "cv.pdf", resume_path := "uploads/cv.pdf",
    created_at := 100 }

/-- A second concrete stored record. -/
def sampleCandidate2 : CandidateOut :=
  { sampleCandidate with
    id := 2
    resume_filename := "b.pdf"
    resume_path := "uploads/b.pdf"
    created_at := 200 }

/-- A concrete two-record server state. -/
def sampleState : ServerState :=
  ⟨3, [(1, sampleCandidate), (2, sampleCandidate2)],
    ["uploads/cv.pdf", "uploads/b.pdf"]⟩

/-- C8 witness: deleting id 1 from the concrete two-record state succeeds,
makes its lookup `NotFound`, and removes its backing file. -/
theorem delete_candidate_spec_witness :
    (delete_candidate true 1 sampleState).1 = DeleteOutcome.deleted ∧
    get_candidate 1 (delete_candidate true 1 sampleState).2 =
      Except.error ErrKind.NotFound ∧
    sampleCandidate.resume_path ∉ (delete_candidate true 1 sampleState).2.files :=
  have h := (delete_candidate_spec true 1 sampleState).2 sampleCandidate (by decide)
  ⟨h.1, h.2.1, h.2.2.2 ⟨by decide, by decide⟩ rfl (by decide)⟩

/-- C10: deletion touches nothing but its target: for any other id the
stored record is unchanged, and the id counter `NEXT_ID` is unchanged,
whether or not a record for the target id existed. -/
theorem delete_frame_spec (removeOk : Bool) (cid j : Nat) (st : ServerState)
    (h : j ≠ cid) :
    dictGet (delete_candidate removeOk cid st).2.CANDIDATES j =
      dictGet st.CANDIDATES j ∧
    (delete_candidate removeOk cid st).2.NEXT_ID = st.NEXT_ID := by
  cases hget : dictGet st.CANDIDATES cid with
  | none =>
    unfold delete_candidate
    rw [hget]
    exact ⟨rfl, rfl⟩
  | some cand =>
    unfold delete_candidate
    rw [hget]
    exact ⟨dictGet_dictRemove_ne st.CANDIDATES cid j h, rfl⟩

/-- C10 witness: deleting id 1 leaves id 2's record and the counter
untouched in the concrete two-record state. -/
theorem delete_frame_spec_witness :
    dictGet (delete_candidate true 1 sampleState).2.CANDIDATES 2 =
      dictGet sampleState.CANDIDATES 2 ∧
    (delete_candidate true 1 sampleState).2.NEXT_ID = sampleState.NEXT_ID :=
  delete_frame_spec true 1 2 sampleState (by decide)

/-! ## The write-failure path of creation -/

/-- A valid creation request whose `f.write(content)` call fails after
`open(stored_path, "wb")` succeeded, run against the empty initial state. -/
def writeFailRun : UploadOutcome × ServerState :=
  upload_candidate ⟨2026, 10, 12⟩ 100 true false "Jo" "2000-01-01" "0123456789"
    "addr5" "BS" 2020 1 "Python" (some "cv.pdf") ⟨1, [], []⟩

/-- C1 (refuted on the code): when the resume write fails after the id was
allocated, the exception propagates with no cleanup: no record is stored,
but the file created by `open` remains at `uploads/cv.pdf` and the id
counter stays advanced — id allocation, file write and store insert do not
abort as one unit. -/
theorem upload_write_failure_leaves_orphan :
    writeFailRun.1 = UploadOutcome.writeError ∧
    writeFailRun.2.CANDIDATES = [] ∧
    writeFailRun.2.files = ["uploads/cv.pdf"] ∧
    writeFailRun.2.NEXT_ID = 2 := by
  refine ⟨rfl, rfl, ?_, rfl⟩
  decide

end MiniResume
